import Mathlib

/-
Shallow embedding of the Startup Fundraising Platform backend
(src/main.py and src/schemas.py).

Modelling conventions:
* The document store is a record of five collections, each an insertion-ordered
  list of (_id, document) pairs; `_id` values are `Nat`, assigned from a
  monotonically increasing counter, mirroring the store-generated unique
  identifiers of the spec (ObjectIds, whose creation order matches their sort
  order, so `sort("_id", -1)` is newest-first).
* ObjectId strings are modelled in their canonical form: `IdStr.valid n` is the
  canonical string of the ObjectId with value `n`, `IdStr.malformed s` any
  string that fails ObjectId parsing.  Ids stored inside documents
  (`owner_user_id`, `startup_id`, `investor_user_id`) are kept as their parsed
  `Nat` value, since the handlers only ever store ids they parsed or that the
  store generated.
* Monetary amounts (`committed_amount`, `total_raised`) are modelled as `ℚ`.
* `db`, `create_document` come from database.py, which is not part of src/;
  they are modelled from the spec (§6): a schema-less document store offering
  `find`, `find_one`, `update_one`, `insert` and `count_documents`, where an
  insert stores the given document as-is under a fresh store-generated id and
  returns that id.
* Handlers that raise `HTTPException` are modelled as returning
  `Except HTTPError _` together with the (possibly unchanged) store; the
  handlers that parse request identifiers additionally return the list of
  store operations they performed, in order, so that statements about which
  queries ran before a failure can be made.
-/

namespace Fund

/-- HTTP error: status code plus detail message (FastAPI `HTTPException`). -/
structure HTTPError where
  status : Nat
  detail : String
deriving Repr, DecidableEq

/-- A request-supplied id string: either the canonical string of an ObjectId
(modelled by its numeric value) or a string that fails ObjectId parsing. -/
inductive IdStr where
  | valid (n : Nat)
  | malformed (s : String)
deriving Repr, DecidableEq

/-- `oid` helper (main.py lines 22-26): parse an id string into the store's
native id type; parse failure raises 400 "Invalid id format". -/
def oid : IdStr → Except HTTPError Nat
  | .valid n => .ok n
  | .malformed _ => .error ⟨400, "Invalid id format"⟩

/-- A store operation performed by a handler: a read or a write of the named
collection. -/
inductive DBOp where
  | read (col : String)
  | write (col : String)
deriving Repr, DecidableEq

/-- Document of the `user` collection.  `register_startup`'s insert carries no
`company` key; `company := none` models the absent field. -/
structure UserDoc where
  email : String
  full_name : Option String
  role : String
  company : Option String := none
  is_active : Bool := true
deriving Repr, DecidableEq

/-- Document of the `startuppitch` collection. -/
structure PitchDoc where
  owner_user_id : Nat
  company_name : String
  product_description : String
  image_urls : List String
  previous_funding : Option String
  status : String
  total_raised : ℚ
deriving Repr, DecidableEq

/-- Document of the `investorprofile` collection. -/
structure ProfileDoc where
  user_id : Nat
  full_name : String
  company : Option String
deriving Repr, DecidableEq

/-- Document of the `interest` collection. -/
structure InterestDoc where
  startup_id : Nat
  investor_user_id : Nat
  message : Option String
  committed_amount : ℚ
deriving Repr, DecidableEq

/-- Document of the `report` collection.  The handler inserts
`payload.dict()` as-is, so a field may be absent: `status := none` models a
document that carries no `status` key at all (the store is schema-less). -/
structure ReportDoc where
  reporter_user_id : Option String
  target_type : String
  target_id : Option String
  reason : String
  status : Option String
deriving Repr, DecidableEq

/-- The document store: five collections in insertion order plus the counter
producing fresh store-generated ids. -/
structure DB where
  users : List (Nat × UserDoc)
  pitches : List (Nat × PitchDoc)
  profiles : List (Nat × ProfileDoc)
  interests : List (Nat × InterestDoc)
  reports : List (Nat × ReportDoc)
  nextId : Nat
deriving Repr, DecidableEq

/-- `update_one` on a filter `{"_id": i}`: update the first document whose id
matches, leave everything else unchanged. -/
def updateFirst {α : Type} (l : List (Nat × α)) (i : Nat) (f : α → α) :
    List (Nat × α) :=
  match l with
  | [] => []
  | x :: t => if x.1 == i then (x.1, f x.2) :: t else x :: updateFirst t i f

/-- Insert into a descending-by-id list, used to model `sort("_id", -1)`. -/
def insertByIdDesc {α : Type} (x : Nat × α) : List (Nat × α) → List (Nat × α)
  | [] => [x]
  | y :: t => if y.1 ≤ x.1 then x :: y :: t else y :: insertByIdDesc x t

/-- `sort("_id", -1)`: order a result set by id, newest (largest id) first. -/
def sortByIdDesc {α : Type} : List (Nat × α) → List (Nat × α)
  | [] => []
  | x :: t => insertByIdDesc x (sortByIdDesc t)

/-- Modelled from the spec: `create_document` (database.py, not in src/)
inserts the given schema-less document under a fresh store-generated id and
returns that id (spec §6). -/
def DB.insertUser (db : DB) (d : UserDoc) : Nat × DB :=
  (db.nextId, { db with users := db.users ++ [(db.nextId, d)], nextId := db.nextId + 1 })

/-- Modelled from the spec: `create_document` into `startuppitch` (spec §6). -/
def DB.insertPitch (db : DB) (d : PitchDoc) : Nat × DB :=
  (db.nextId, { db with pitches := db.pitches ++ [(db.nextId, d)], nextId := db.nextId + 1 })

/-- Modelled from the spec: `create_document` into `investorprofile` (spec §6). -/
def DB.insertProfile (db : DB) (d : ProfileDoc) : Nat × DB :=
  (db.nextId, { db with profiles := db.profiles ++ [(db.nextId, d)], nextId := db.nextId + 1 })

/-- Modelled from the spec: `create_document` into `interest` (spec §6). -/
def DB.insertInterest (db : DB) (d : InterestDoc) : Nat × DB :=
  (db.nextId, { db with interests := db.interests ++ [(db.nextId, d)], nextId := db.nextId + 1 })

/-- Modelled from the spec: `create_document` into `report` (spec §6). -/
def DB.insertReport (db : DB) (d : ReportDoc) : Nat × DB :=
  (db.nextId, { db with reports := db.reports ++ [(db.nextId, d)], nextId := db.nextId + 1 })

-- Request models (main.py lines 39-65).  Pydantic validates shapes before a
-- handler runs; `committed_amount` carries `ge=0` at that layer.

structure StartupRegisterRequest where
  email : String
  company_name : String
  product_description : String
  image_urls : List String := []
  previous_funding : Option String := none
  full_name : Option String := none
deriving Repr, DecidableEq

structure InvestorRegisterRequest where
  email : String
  full_name : String
  company : Option String := none
deriving Repr, DecidableEq

structure InterestCreateRequest where
  investor_user_id : IdStr
  message : Option String := none
  committed_amount : ℚ := 0
deriving Repr, DecidableEq

structure ReportCreateRequest where
  reporter_user_id : Option String := none
  target_type : String
  target_id : Option String := none
  reason : String
deriving Repr, DecidableEq

structure AdminBootstrapRequest where
  email : String
  full_name : String
deriving Repr, DecidableEq

-- Response shapes.

structure RegisterStartupResponse where
  user_id : Nat
  startup_id : Nat
  role : String
deriving Repr, DecidableEq

structure RegisterInvestorResponse where
  user_id : Nat
  role : String
deriving Repr, DecidableEq

structure InterestResponse where
  interest_id : Nat
  total_raised : ℚ
deriving Repr, DecidableEq

structure StatusResponse where
  status : String
deriving Repr, DecidableEq

structure ReportResponse where
  report_id : Nat
deriving Repr, DecidableEq

structure AnalyticsResponse where
  users : Nat
  startups : Nat
  investors : Nat
  interests : Nat
  total_funds : ℚ
deriving Repr, DecidableEq

/-- Public projection of a startup pitch (`to_public`, main.py lines 29-35):
the internal `_id` is renamed to a public `id`; all stored fields are kept. -/
structure PublicPitch where
  id : Nat
  owner_user_id : Nat
  company_name : String
  product_description : String
  image_urls : List String
  previous_funding : Option String
  status : String
  total_raised : ℚ
deriving Repr, DecidableEq

/-- `to_public` for a startup pitch document. -/
def toPublic (x : Nat × PitchDoc) : PublicPitch :=
  { id := x.1
    owner_user_id := x.2.owner_user_id
    company_name := x.2.company_name
    product_description := x.2.product_description
    image_urls := x.2.image_urls
    previous_funding := x.2.previous_funding
    status := x.2.status
    total_raised := x.2.total_raised }

structure StartupListResponse where
  items : List PublicPitch
deriving Repr, DecidableEq

structure DashboardInvestor where
  id : Nat
  full_name : Option String
  company : Option String
  email : Option String
deriving Repr, DecidableEq

structure EnrichedInterest where
  id : Nat
  message : Option String
  committed_amount : ℚ
  investor : DashboardInvestor
deriving Repr, DecidableEq

structure DashboardResponse where
  startup : PublicPitch
  interested_investors : List EnrichedInterest
  total_raised : ℚ
deriving Repr, DecidableEq

-- Handlers.

/-- First half of `register_startup` (main.py lines 105-117, "# Create user"):
find the user by email; if found, `$set` role to "startup" and full_name;
otherwise insert a fresh user document.  Returns the user id (string of the
existing `_id`, or the id returned by `create_document`) and the store. -/
def startupUserPhase (db : DB) (p : StartupRegisterRequest) : Nat × DB :=
  match db.users.find? (fun x => x.2.email == p.email) with
  | some existing =>
      let users' := updateFirst db.users existing.1
        (fun u => { u with role := "startup", full_name := p.full_name })
      (existing.1, { db with users := users' })
  | none =>
      db.insertUser
        { email := p.email, full_name := p.full_name, role := "startup",
          is_active := true }

/-- Second half of `register_startup` (main.py lines 118-133, "# Create
startup pitch"): build `pitch_doc`, find the pitch by `owner_user_id`; if
found, `$set` the whole `pitch_doc` onto it; otherwise insert it. -/
def startupPitchPhase (db : DB) (p : StartupRegisterRequest) (user_id : Nat) :
    Nat × DB :=
  let pitch_doc : PitchDoc :=
    { owner_user_id := user_id
      company_name := p.company_name
      product_description := p.product_description
      image_urls := p.image_urls
      previous_funding := p.previous_funding
      status := "pending"
      total_raised := 0 }
  match db.pitches.find? (fun x => x.2.owner_user_id == user_id) with
  | some existing_pitch =>
      let pitches' := updateFirst db.pitches existing_pitch.1 (fun _ => pitch_doc)
      (existing_pitch.1, { db with pitches := pitches' })
  | none => db.insertPitch pitch_doc

/-- `POST /api/register/startup` (main.py lines 103-134). -/
def registerStartup (db : DB) (p : StartupRegisterRequest) :
    RegisterStartupResponse × DB :=
  let u := startupUserPhase db p
  let s := startupPitchPhase u.2 p u.1
  ({ user_id := u.1, startup_id := s.1, role := "startup" }, s.2)

/-- User half of `register_investor` (main.py lines 139-150): upsert the user
by email with role "investor", full_name and company. -/
def investorUserPhase (db : DB) (p : InvestorRegisterRequest) : Nat × DB :=
  match db.users.find? (fun x => x.2.email == p.email) with
  | some existing =>
      let setInv : UserDoc → UserDoc := fun u =>
        { u with role := "investor", full_name := some p.full_name, company := p.company }
      let users' := updateFirst db.users existing.1 setInv
      (existing.1, { db with users := users' })
  | none =>
      db.insertUser
        { email := p.email, full_name := some p.full_name, company := p.company,
          role := "investor", is_active := true }

/-- Profile half of `register_investor` (main.py lines 151-155): upsert the
investor profile by `user_id`. -/
def investorProfilePhase (db : DB) (p : InvestorRegisterRequest)
    (user_id : Nat) : DB :=
  match db.profiles.find? (fun x => x.2.user_id == user_id) with
  | some prof =>
      let profiles' := updateFirst db.profiles prof.1
        (fun pr => { pr with full_name := p.full_name, company := p.company })
      { db with profiles := profiles' }
  | none =>
      (db.insertProfile
        { user_id := user_id, full_name := p.full_name, company := p.company }).2

/-- `POST /api/register/investor` (main.py lines 137-156). -/
def registerInvestor (db : DB) (p : InvestorRegisterRequest) :
    RegisterInvestorResponse × DB :=
  let u := investorUserPhase db p
  ({ user_id := u.1, role := "investor" }, investorProfilePhase u.2 p u.1)

/-- `GET /api/startups` (main.py lines 160-166): `q = {}`; if `status` is
truthy (not `None`, not the empty string) filter on it; return the matches
sorted by `_id` descending, each projected by `to_public`. -/
def listStartups (db : DB) (status : Option String := some "approved") :
    StartupListResponse :=
  let q : Nat × PitchDoc → Bool := fun x =>
    match status with
    | some s => if s = "" then true else x.2.status == s
    | none => true
  { items := (sortByIdDesc (db.pitches.filter q)).map toPublic }

/-- `POST /api/startups/{startup_id}/interest` (main.py lines 170-189).
Returns the result, the store, and the list of store operations performed,
in source order: the startup lookup runs before the body's
`investor_user_id` is parsed. -/
def expressInterest (db : DB) (startup_id : IdStr)
    (payload : InterestCreateRequest) :
    Except HTTPError InterestResponse × DB × List DBOp :=
  match oid startup_id with
  | .error e => (.error e, db, [])
  | .ok sid =>
    match db.pitches.find? (fun x => x.1 == sid) with
    | none => (.error ⟨404, "Startup not found"⟩, db, [.read "startuppitch"])
    | some _ =>
      match oid payload.investor_user_id with
      | .error e => (.error e, db, [.read "startuppitch"])
      | .ok iuid =>
        match db.users.find? (fun x => x.1 == iuid) with
        | none =>
            (.error ⟨400, "Invalid investor user"⟩, db,
             [.read "startuppitch", .read "user"])
        | some inv_user =>
          if inv_user.2.role ≠ "investor" then
            (.error ⟨400, "Invalid investor user"⟩, db,
             [.read "startuppitch", .read "user"])
          else
            let ins := db.insertInterest
              { startup_id := sid
                investor_user_id := iuid
                message := payload.message
                committed_amount := payload.committed_amount }
            let total : ℚ :=
              ((ins.2.interests.filter (fun x => x.2.startup_id == sid)).foldl
                (fun acc x => acc + x.2.committed_amount) 0)
            let pitches' := updateFirst ins.2.pitches sid
              (fun s => { s with total_raised := total })
            (.ok { interest_id := ins.1, total_raised := total },
             { ins.2 with pitches := pitches' },
             [.read "startuppitch", .read "user", .write "interest",
              .read "interest", .write "startuppitch"])

/-- Overwrite-or-append insertion into the id-keyed dictionary built by the
dashboard handler (a Python dict keyed by the id string). -/
def insertAssoc (m : List (Nat × UserDoc)) (k : Nat) (v : UserDoc) :
    List (Nat × UserDoc) :=
  if m.any (fun e => e.1 == k) then
    m.map (fun e => if e.1 == k then (k, v) else e)
  else m ++ [(k, v)]

/-- `GET /api/startups/{startup_id}/dashboard` (main.py lines 193-224).
Read-only; returns the result and the store operations performed.  The two
dictionary lookups of the source (raw value, then its string form) coincide
under canonical id strings and are modelled as one lookup. -/
def startupDashboard (db : DB) (startup_id : IdStr) :
    Except HTTPError DashboardResponse × List DBOp :=
  match oid startup_id with
  | .error e => (.error e, [])
  | .ok sid =>
    match db.pitches.find? (fun x => x.1 == sid) with
    | none => (.error ⟨404, "Startup not found"⟩, [.read "startuppitch"])
    | some s =>
      let interests :=
        sortByIdDesc (db.interests.filter (fun x => x.2.startup_id == sid))
      let investor_ids := interests.map (fun i => i.2.investor_user_id)
      let users_map : List (Nat × UserDoc) :=
        (db.users.filter (fun u => investor_ids.contains u.1)).foldl
          (fun m u => insertAssoc m u.1 u.2) []
      let enriched : List EnrichedInterest := interests.map (fun i =>
        let u := users_map.find? (fun e => e.1 == i.2.investor_user_id)
        { id := i.1
          message := i.2.message
          committed_amount := i.2.committed_amount
          investor :=
            match u with
            | some uu =>
                { id := uu.1, full_name := uu.2.full_name,
                  company := uu.2.company, email := some uu.2.email }
            | none =>
                { id := i.2.investor_user_id, full_name := none,
                  company := none, email := none } })
      (.ok { startup := toPublic s, interested_investors := enriched,
             total_raised := s.2.total_raised },
       [.read "startuppitch", .read "interest"]
         ++ (if investor_ids.isEmpty then [] else [.read "user"]))

/-- `POST /api/reports` (main.py lines 228-231): insert `payload.dict()`
as-is; the request model has no `status` field, so the stored document
carries no `status` key (`status := none`). -/
def createReport (db : DB) (payload : ReportCreateRequest) :
    ReportResponse × DB :=
  let ins := db.insertReport
    { reporter_user_id := payload.reporter_user_id
      target_type := payload.target_type
      target_id := payload.target_id
      reason := payload.reason
      status := none }
  ({ report_id := ins.1 }, ins.2)

/-- `POST /api/admin/bootstrap` (main.py lines 239-247): upsert the user by
email with role "admin". -/
def adminBootstrap (db : DB) (payload : AdminBootstrapRequest) :
    RegisterInvestorResponse × DB :=
  match db.users.find? (fun x => x.2.email == payload.email) with
  | some existing =>
      let users' := updateFirst db.users existing.1
        (fun u => { u with role := "admin", full_name := some payload.full_name })
      ({ user_id := existing.1, role := "admin" }, { db with users := users' })
  | none =>
      let ins := db.insertUser
        { email := payload.email, full_name := some payload.full_name,
          role := "admin", is_active := true }
      ({ user_id := ins.1, role := "admin" }, ins.2)

/-- `POST /api/admin/startups/{startup_id}/approve` (main.py lines 249-254):
`update_one` setting status "approved"; 404 when nothing matched. -/
def approveStartup (db : DB) (startup_id : IdStr) :
    Except HTTPError StatusResponse × DB × List DBOp :=
  match oid startup_id with
  | .error e => (.error e, db, [])
  | .ok sid =>
    let matched := db.pitches.any (fun x => x.1 == sid)
    let pitches' := updateFirst db.pitches sid
      (fun s => { s with status := "approved" })
    let db1 := { db with pitches := pitches' }
    if matched then (.ok { status := "approved" }, db1, [.write "startuppitch"])
    else (.error ⟨404, "Startup not found"⟩, db1, [.write "startuppitch"])

/-- `POST /api/admin/startups/{startup_id}/reject` (main.py lines 256-261). -/
def rejectStartup (db : DB) (startup_id : IdStr) :
    Except HTTPError StatusResponse × DB × List DBOp :=
  match oid startup_id with
  | .error e => (.error e, db, [])
  | .ok sid =>
    let matched := db.pitches.any (fun x => x.1 == sid)
    let pitches' := updateFirst db.pitches sid
      (fun s => { s with status := "rejected" })
    let db1 := { db with pitches := pitches' }
    if matched then (.ok { status := "rejected" }, db1, [.write "startuppitch"])
    else (.error ⟨404, "Startup not found"⟩, db1, [.write "startuppitch"])

/-- `GET /api/admin/analytics` (main.py lines 263-278): counts plus the fold
accumulating `total_raised` over every startup pitch. -/
def analytics (db : DB) : AnalyticsResponse :=
  { users := db.users.length
    startups := db.pitches.length
    investors := (db.users.filter (fun x => x.2.role == "investor")).length
    interests := db.interests.length
    total_funds := db.pitches.foldl (fun acc s => acc + s.2.total_raised) 0 }

-- Specification-side definitions, used to state the claims.

/-- The sum of `committed_amount` over all Interest documents whose
`startup_id` references the given pitch. -/
def sumCommitted (l : List (Nat × InterestDoc)) (sid : Nat) : ℚ :=
  ((l.filter (fun x => x.2.startup_id == sid)).map
    (fun x => x.2.committed_amount)).sum

/-- The spec's aggregate invariant: every pitch's `total_raised` equals the
sum of `committed_amount` over the Interests referencing it. -/
def totalRaisedInvariant (db : DB) : Bool :=
  db.pitches.all (fun s => decide (s.2.total_raised = sumCommitted db.interests s.1))

/-- The User, if any, that a request-supplied `investor_user_id` resolves to:
none when the id is malformed or matches no user document. -/
def resolveInvestor (db : DB) (r : IdStr) : Option UserDoc :=
  match oid r with
  | .ok i => (db.users.find? (fun x => x.1 == i)).map (fun x => x.2)
  | .error _ => none

-- Concrete stores, built by running the handlers from the empty store; used
-- by the closed theorems below.

/-- The empty store. -/
def db0 : DB := { users := [], pitches := [], profiles := [], interests := [],
                  reports := [], nextId := 0 }

/-- A startup registration payload. -/
def pA : StartupRegisterRequest :=
  { email := "founder@a.com", company_name := "Acme",
    product_description := "rockets", image_urls := [],
    previous_funding := none, full_name := some "Ann" }

/-- An investor registration payload. -/
def pI : InvestorRegisterRequest :=
  { email := "inv@b.com", full_name := "Bob", company := none }

/-- An interest payload from the investor registered by `pI`. -/
def payC : InterestCreateRequest :=
  { investor_user_id := IdStr.valid 2, message := none, committed_amount := 100 }

/-- After registering the startup: user 0, pitch 1. -/
def exDb1 : DB := (registerStartup db0 pA).2

/-- After also registering the investor: user 2, profile 3. -/
def exDb2 : DB := (registerInvestor exDb1 pI).2

/-- After the investor commits 100 to pitch 1: interest 4, `total_raised` 100. -/
def exDb3 : DB := (expressInterest exDb2 (IdStr.valid 1) payC).2.1

/-- After the startup owner re-registers with the same email. -/
def exDb4 : DB := (registerStartup exDb3 pA).2

-- Concrete payloads, documents and stores used by the witnesses and
-- counterexamples below.

/-- A concrete report request. -/
def repReq : ReportCreateRequest :=
  { reporter_user_id := none, target_type := "startup", target_id := some "1",
    reason := "spam" }

/-- The document `create_report` stores for `repReq`: the supplied fields,
and no `status` key. -/
def repDoc : ReportDoc :=
  { reporter_user_id := none, target_type := "startup", target_id := some "1",
    reason := "spam", status := none }

/-- An approved pitch document used by the listing witness. -/
def pdApproved : PitchDoc :=
  { owner_user_id := 10, company_name := "A", product_description := "a",
    image_urls := [], previous_funding := none, status := "approved",
    total_raised := 0 }

/-- A store with two approved pitches and one pending pitch. -/
def dbList : DB :=
  { users := [], pitches := [(0, pdApproved),
      (1, { pdApproved with status := "pending" }),
      (2, { pdApproved with company_name := "B" })],
    profiles := [], interests := [], reports := [], nextId := 3 }

/-- An interest request naming user 0 (a startup owner, not an investor). -/
def payBad : InterestCreateRequest :=
  { investor_user_id := IdStr.valid 0, message := none, committed_amount := 5 }

/-- The user document stored for the startup owner in `exDb2`. -/
def ownerDoc : UserDoc :=
  { email := "founder@a.com", full_name := some "Ann", role := "startup",
    company := none, is_active := true }

/-- An interest request whose body id fails ObjectId parsing. -/
def payMal : InterestCreateRequest :=
  { investor_user_id := IdStr.malformed "zzz", message := none,
    committed_amount := 0 }

/-- The pitch document stored under id 1 in `exDb2`. -/
def pitchDoc2 : PitchDoc :=
  { owner_user_id := 0, company_name := "Acme", product_description := "rockets",
    image_urls := [], previous_funding := none, status := "pending",
    total_raised := 0 }

/-- The investor user document stored under id 2 in `exDb2`. -/
def invDoc : UserDoc :=
  { email := "inv@b.com", full_name := some "Bob", role := "investor",
    company := none, is_active := true }

/-- A store holding one admin user created by `admin_bootstrap`. -/
def dbAdmin : DB := (adminBootstrap db0 { email := "x@y.com", full_name := "X" }).2

/-- A startup registration for the admin's email. -/
def psW : StartupRegisterRequest :=
  { email := "x@y.com", company_name := "C", product_description := "d",
    image_urls := [], previous_funding := none, full_name := some "X" }

/-- An investor registration for the admin's email. -/
def pvW : InvestorRegisterRequest :=
  { email := "x@y.com", full_name := "X", company := none }

/-- An admin bootstrap for the admin's email. -/
def paW : AdminBootstrapRequest := { email := "x@y.com", full_name := "X" }

/-- The admin user document stored in `dbAdmin`. -/
def adminDoc : UserDoc :=
  { email := "x@y.com", full_name := some "X", role := "admin",
    company := none, is_active := true }

/-- A literal store in which user 0 owns pitch 1 and interest 4 commits 100
to it. -/
def dbOwn : DB :=
  { users := [(0, ownerDoc)],
    pitches := [(1, { pitchDoc2 with total_raised := 100 })],
    profiles := [],
    interests := [(4, { startup_id := 1, investor_user_id := 2,
                        message := none, committed_amount := 100 })],
    reports := [], nextId := 5 }

-- Helper lemmas about the store primitives.

theorem updateFirst_length {α : Type} (l : List (Nat × α)) (i : Nat)
    (f : α → α) : (updateFirst l i f).length = l.length := by
  induction l with
  | nil => rfl
  | cons x t ih =>
    simp only [updateFirst]
    split <;> simp [ih]

theorem updateFirst_of_not_any {α : Type} (l : List (Nat × α)) (i : Nat)
    (f : α → α) (h : l.any (fun x => x.1 == i) = false) :
    updateFirst l i f = l := by
  induction l with
  | nil => rfl
  | cons x t ih =>
    simp only [List.any_cons, Bool.or_eq_false_iff] at h
    simp only [updateFirst, h.1, Bool.false_eq_true, if_false, ih h.2]

theorem any_updateFirst {α : Type} (l : List (Nat × α)) (i j : Nat)
    (f : α → α) :
    (updateFirst l i f).any (fun x => x.1 == j) = l.any (fun x => x.1 == j) := by
  induction l with
  | nil => rfl
  | cons x t ih =>
    simp only [updateFirst]
    by_cases h : x.1 == i
    · rw [if_pos h]; simp [List.any_cons]
    · rw [if_neg (by simpa using h)]; simp [List.any_cons, ih]

theorem find?_id_updateFirst {α : Type} (l : List (Nat × α)) (i : Nat)
    (f : α → α) :
    (updateFirst l i f).find? (fun x => x.1 == i)
      = (l.find? (fun x => x.1 == i)).map (fun x => (x.1, f x.2)) := by
  induction l with
  | nil => rfl
  | cons x t ih =>
    simp only [updateFirst]
    by_cases h : x.1 == i
    · simp [h, List.find?_cons_of_pos]
    · simp only [h, Bool.false_eq_true, if_false]
      rw [List.find?_cons_of_neg _ (by simpa using h),
          List.find?_cons_of_neg _ (by simpa using h), ih]

theorem find?_map_fst_updateFirst {α : Type} (l : List (Nat × α)) (i : Nat)
    (f : α → α) (p : Nat × α → Bool)
    (hp : ∀ j d, p (j, f d) = p (j, d)) :
    ((updateFirst l i f).find? p).map (fun x => x.1)
      = (l.find? p).map (fun x => x.1) := by
  induction l with
  | nil => rfl
  | cons x t ih =>
    simp only [updateFirst]
    by_cases h : x.1 == i
    · by_cases hx : p x
      · rw [if_pos h, List.find?_cons_of_pos _ (by rw [hp]; exact (Prod.mk.eta ▸ hx)),
            List.find?_cons_of_pos _ hx]
        rfl
      · rw [if_pos h, List.find?_cons_of_neg _ (by rw [hp]; exact (Prod.mk.eta ▸ hx)),
            List.find?_cons_of_neg _ hx]
    · by_cases hx : p x
      · rw [if_neg (by simpa using h), List.find?_cons_of_pos _ hx,
            List.find?_cons_of_pos _ hx]
      · rw [if_neg (by simpa using h), List.find?_cons_of_neg _ hx,
            List.find?_cons_of_neg _ hx, ih]

theorem find?_updateFirst_const {α : Type} (l : List (Nat × α))
    (p : Nat × α → Bool) (j : Nat) (d c : α)
    (hf : l.find? p = some (j, d)) (hc : p (j, c) = true) :
    (updateFirst l j (fun _ => c)).find? p = some (j, c) := by
  induction l with
  | nil => simp at hf
  | cons x t ih =>
    by_cases hx : p x
    · rw [List.find?_cons_of_pos _ hx] at hf
      obtain rfl : x = (j, d) := by simpa using hf
      simp only [updateFirst]
      rw [if_pos (by simp)]
      exact List.find?_cons_of_pos _ hc
    · rw [List.find?_cons_of_neg _ hx] at hf
      simp only [updateFirst]
      by_cases hxj : x.1 == j
      · rw [if_pos hxj, show x.1 = j from by simpa using hxj]
        exact List.find?_cons_of_pos _ hc
      · rw [if_neg (by simpa using hxj), List.find?_cons_of_neg _ hx]
        exact ih hf

theorem find?_id_isSome_of_mem {α : Type} {l : List (Nat × α)} {i : Nat}
    {d : α} (h : (i, d) ∈ l) :
    (l.find? (fun x => x.1 == i)).isSome = true := by
  rw [List.find?_isSome]
  exact ⟨(i, d), h, by simp⟩

theorem find?_append_left_none {α : Type} (l₁ l₂ : List α) (p : α → Bool)
    (h : l₁.find? p = none) : (l₁ ++ l₂).find? p = l₂.find? p := by
  induction l₁ with
  | nil => rfl
  | cons x t ih =>
    by_cases hx : p x
    · rw [List.find?_cons_of_pos _ hx] at h; cases h
    · rw [List.find?_cons_of_neg _ hx] at h
      rw [List.cons_append, List.find?_cons_of_neg _ hx, ih h]

theorem insertByIdDesc_all_lt {α : Type} (x : Nat × α) (l : List (Nat × α))
    (h : ∀ y ∈ l, x.1 < y.1) : insertByIdDesc x l = l ++ [x] := by
  induction l with
  | nil => rfl
  | cons y t ih =>
    have hy : ¬ y.1 ≤ x.1 := Nat.not_le.mpr (h y (List.mem_cons_self y t))
    simp only [insertByIdDesc, if_neg hy, List.cons_append]
    rw [ih (fun z hz => h z (List.mem_cons_of_mem y hz))]

theorem sortByIdDesc_of_pairwise {α : Type} (l : List (Nat × α))
    (h : l.Pairwise (fun a b => a.1 < b.1)) : sortByIdDesc l = l.reverse := by
  induction l with
  | nil => rfl
  | cons x t ih =>
    rw [List.pairwise_cons] at h
    simp only [sortByIdDesc, ih h.2, List.reverse_cons]
    exact insertByIdDesc_all_lt x t.reverse
      (fun y hy => h.1 y (List.mem_reverse.mp hy))

theorem foldl_add_rat {α : Type} (g : α → ℚ) (l : List α) (a : ℚ) :
    l.foldl (fun acc x => acc + g x) a = a + (l.map g).sum := by
  induction l generalizing a with
  | nil => simp
  | cons x t ih => simp [ih, add_assoc]

theorem sumCommitted_append (l : List (Nat × InterestDoc))
    (x : Nat × InterestDoc) (n : Nat) (h : x.2.startup_id = n) :
    sumCommitted (l ++ [x]) n = sumCommitted l n + x.2.committed_amount := by
  simp [sumCommitted, List.filter_append, h]

-- Frame lemmas: each handler phase touches only its own collection.

theorem startupUserPhase_pitches (db : DB) (p : StartupRegisterRequest) :
    (startupUserPhase db p).2.pitches = db.pitches := by
  simp only [startupUserPhase]
  cases h : db.users.find? (fun x => x.2.email == p.email) <;>
    simp [h, DB.insertUser]

theorem startupUserPhase_interests (db : DB) (p : StartupRegisterRequest) :
    (startupUserPhase db p).2.interests = db.interests := by
  simp only [startupUserPhase]
  cases h : db.users.find? (fun x => x.2.email == p.email) <;>
    simp [h, DB.insertUser]

theorem startupPitchPhase_users (db : DB) (p : StartupRegisterRequest)
    (uid : Nat) : (startupPitchPhase db p uid).2.users = db.users := by
  simp only [startupPitchPhase]
  cases h : db.pitches.find? (fun x => x.2.owner_user_id == uid) <;>
    simp [h, DB.insertPitch]

theorem startupPitchPhase_interests (db : DB) (p : StartupRegisterRequest)
    (uid : Nat) : (startupPitchPhase db p uid).2.interests = db.interests := by
  simp only [startupPitchPhase]
  cases h : db.pitches.find? (fun x => x.2.owner_user_id == uid) <;>
    simp [h, DB.insertPitch]

theorem investorProfilePhase_users (db : DB) (p : InvestorRegisterRequest)
    (uid : Nat) : (investorProfilePhase db p uid).users = db.users := by
  simp only [investorProfilePhase]
  cases h : db.profiles.find? (fun x => x.2.user_id == uid) <;>
    simp [h, DB.insertProfile]

-- C9 ---------------------------------------------------------------------

/-- C9: the analytics operation returns `total_funds` equal to the sum of
`total_raised` over every StartupPitch document, regardless of status,
together with the counts of all Users, all StartupPitches, Users with role
"investor", and all Interests. -/
theorem analytics_returns_totals (db : DB) :
    analytics db
      = { users := db.users.length
          startups := db.pitches.length
          investors := (db.users.filter (fun x => x.2.role == "investor")).length
          interests := db.interests.length
          total_funds := (db.pitches.map (fun s => s.2.total_raised)).sum } := by
  unfold analytics
  congr 1
  exact (foldl_add_rat (fun s => s.2.total_raised) db.pitches 0).trans
    (zero_add _)

-- C7 ---------------------------------------------------------------------

/-- C7: with no status argument (default "approved"), `list_startups`
returns exactly the pitches whose status is "approved", newest first
(reverse insertion order, given ids increasing in insertion order), each
projected with the internal identifier renamed to a public id. -/
theorem list_startups_default_approved (db : DB)
    (hw : db.pitches.Pairwise (fun a b => a.1 < b.1)) :
    listStartups db
      = { items := (db.pitches.filter
            (fun x => x.2.status == "approved")).reverse.map toPublic } := by
  have hq : ∀ x : Nat × PitchDoc,
      (if ("approved" : String) = "" then true else x.2.status == "approved")
        = (x.2.status == "approved") := fun x => if_neg (by decide)
  simp only [listStartups, hq]
  congr 1
  exact congrArg (List.map toPublic)
    (sortByIdDesc_of_pairwise _ (List.Pairwise.sublist (List.filter_sublist _) hw))

-- C8 ---------------------------------------------------------------------

/-- C8: approving then rejecting an existing startup id leaves its status
"rejected" (last write wins, no guard on the prior status); on an id that
matches no pitch, both operations return 404 and leave the store
unchanged. -/
theorem approve_then_reject (db : DB) (n : Nat) :
    (db.pitches.any (fun x => x.1 == n) = true →
       (approveStartup db (IdStr.valid n)).1 = .ok { status := "approved" }
     ∧ (rejectStartup (approveStartup db (IdStr.valid n)).2.1 (IdStr.valid n)).1
         = .ok { status := "rejected" }
     ∧ ((rejectStartup (approveStartup db (IdStr.valid n)).2.1
           (IdStr.valid n)).2.1.pitches.find? (fun x => x.1 == n)).map
         (fun x => x.2.status) = some "rejected")
  ∧ (db.pitches.any (fun x => x.1 == n) = false →
       approveStartup db (IdStr.valid n)
         = (.error ⟨404, "Startup not found"⟩, db, [DBOp.write "startuppitch"])
     ∧ rejectStartup db (IdStr.valid n)
         = (.error ⟨404, "Startup not found"⟩, db, [DBOp.write "startuppitch"])) := by
  constructor
  · intro h
    have happ : approveStartup db (IdStr.valid n)
        = (.ok { status := "approved" },
           { db with pitches := updateFirst db.pitches n (fun s => { s with status := "approved" }) },
           [DBOp.write "startuppitch"]) := by
      simp [approveStartup, oid, h]
    have h2 : (updateFirst db.pitches n
          (fun s => { s with status := "approved" })).any (fun x => x.1 == n)
        = true := by rw [any_updateFirst]; exact h
    have hrej : rejectStartup
          { db with pitches := updateFirst db.pitches n (fun s => { s with status := "approved" }) }
          (IdStr.valid n)
        = (.ok { status := "rejected" },
           { db with pitches := updateFirst (updateFirst db.pitches n (fun s => { s with status := "approved" })) n (fun s => { s with status := "rejected" }) },
           [DBOp.write "startuppitch"]) := by
      simp [rejectStartup, oid, h2]
    refine ⟨by rw [happ], by rw [happ, hrej], ?_⟩
    rw [happ, hrej]
    obtain ⟨x, hx, hpx⟩ := List.any_eq_true.mp h
    have hsome : (db.pitches.find? (fun x => x.1 == n)).isSome = true := by
      rw [List.find?_isSome]; exact ⟨x, hx, hpx⟩
    obtain ⟨y, hy⟩ := Option.isSome_iff_exists.mp hsome
    simp [find?_id_updateFirst, hy]
  · intro h
    have hupA := updateFirst_of_not_any db.pitches n
      (fun s => { s with status := "approved" }) h
    have hupR := updateFirst_of_not_any db.pitches n
      (fun s => { s with status := "rejected" }) h
    constructor
    · simp [approveStartup, oid, h, hupA]
    · simp [rejectStartup, oid, h, hupR]

/-- Witness for C8 at a concrete store: pitch 1 exists, id 99 does not. -/
theorem approve_then_reject_witness :
    ((approveStartup exDb1 (IdStr.valid 1)).1 = .ok { status := "approved" }
     ∧ (rejectStartup (approveStartup exDb1 (IdStr.valid 1)).2.1 (IdStr.valid 1)).1
         = .ok { status := "rejected" }
     ∧ ((rejectStartup (approveStartup exDb1 (IdStr.valid 1)).2.1
           (IdStr.valid 1)).2.1.pitches.find? (fun x => x.1 == 1)).map
         (fun x => x.2.status) = some "rejected")
  ∧ (approveStartup exDb1 (IdStr.valid 99)
       = (.error ⟨404, "Startup not found"⟩, exDb1, [DBOp.write "startuppitch"])
     ∧ rejectStartup exDb1 (IdStr.valid 99)
       = (.error ⟨404, "Startup not found"⟩, exDb1, [DBOp.write "startuppitch"])) :=
  ⟨(approve_then_reject exDb1 1).1 (by decide),
   (approve_then_reject exDb1 99).2 (by decide)⟩

-- C4 ---------------------------------------------------------------------

/-- C4: `create_report` inserts `payload.dict()` as-is, so exactly one
Report document is created holding the supplied fields and the response is
the new document's id — but the stored document carries no `status` key at
all (`status := none`), instead of the "open" default declared for the
`report` collection in schemas.py. -/
theorem create_report_inserts_without_status :
    createReport db0 repReq
      = ({ report_id := 0 }, { db0 with reports := [(0, repDoc)], nextId := 1 })
  ∧ ((createReport db0 repReq).2.reports.map (fun r => r.2.status))
      ≠ [some "open"] := by
  constructor
  · rfl
  · decide

-- C7 witness material ----------------------------------------------------

/-- Witness for C7 at a concrete store. -/
theorem list_startups_default_approved_witness :
    listStartups dbList
      = { items := (dbList.pitches.filter
            (fun x => x.2.status == "approved")).reverse.map toPublic } :=
  list_startups_default_approved dbList (by decide)

-- C2 ---------------------------------------------------------------------

/-- C2: when the startup exists but the request's `investor_user_id`
resolves to no User, or to a User whose role is not "investor", the
operation fails with a 400-class error and the store is returned
unchanged. -/
theorem express_interest_invalid_investor (db : DB) (n : Nat)
    (payload : InterestCreateRequest)
    (hs : (db.pitches.find? (fun x => x.1 == n)).isSome = true)
    (hinv : resolveInvestor db payload.investor_user_id = none
          ∨ ∃ u, resolveInvestor db payload.investor_user_id = some u
               ∧ u.role ≠ "investor") :
    ∃ e, (expressInterest db (IdStr.valid n) payload).1 = .error e
       ∧ e.status = 400
       ∧ (expressInterest db (IdStr.valid n) payload).2.1 = db := by
  obtain ⟨sp, hsp⟩ := Option.isSome_iff_exists.mp hs
  cases hr : payload.investor_user_id with
  | malformed s =>
    refine ⟨⟨400, "Invalid id format"⟩, ?_, rfl, ?_⟩ <;>
      simp [expressInterest, oid, hsp, hr]
  | valid iu =>
    cases hu : db.users.find? (fun x => x.1 == iu) with
    | none =>
      refine ⟨⟨400, "Invalid investor user"⟩, ?_, rfl, ?_⟩ <;>
        simp [expressInterest, oid, hsp, hr, hu]
    | some uu =>
      have hres : resolveInvestor db payload.investor_user_id = some uu.2 := by
        simp [resolveInvestor, oid, hr, hu]
      have hrole : uu.2.role ≠ "investor" := by
        rcases hinv with hn | ⟨u, hru, hur⟩
        · rw [hres] at hn; cases hn
        · rw [hres] at hru
          obtain rfl := Option.some.inj hru
          exact hur
      refine ⟨⟨400, "Invalid investor user"⟩, ?_, rfl, ?_⟩ <;>
        simp [expressInterest, oid, hsp, hr, hu, if_pos hrole]

/-- Witness for C2: pitch 1 exists in `exDb2`, user 0 has role "startup". -/
theorem express_interest_invalid_investor_witness :
    ∃ e, (expressInterest exDb2 (IdStr.valid 1) payBad).1 = .error e
       ∧ e.status = 400
       ∧ (expressInterest exDb2 (IdStr.valid 1) payBad).2.1 = exDb2 :=
  express_interest_invalid_investor exDb2 1 payBad (by decide)
    (Or.inr ⟨ownerDoc, by decide, by decide⟩)

-- C3 ---------------------------------------------------------------------

/-- C3 (amended): a malformed identifier always yields the 400 error with
detail "Invalid id format" and nothing is written; a malformed PATH
identifier fails before any store operation runs, but a malformed BODY
identifier (`investor_user_id` in express_interest) fails only after the
startup lookup query has executed. -/
theorem invalid_id_format_rejected (db : DB) (s : String)
    (pl pl2 : InterestCreateRequest) (n : Nat) (sp : Nat × PitchDoc)
    (h2 : pl2.investor_user_id = IdStr.malformed s)
    (hp : db.pitches.find? (fun x => x.1 == n) = some sp) :
    expressInterest db (IdStr.malformed s) pl
        = (.error ⟨400, "Invalid id format"⟩, db, [])
  ∧ approveStartup db (IdStr.malformed s)
        = (.error ⟨400, "Invalid id format"⟩, db, [])
  ∧ rejectStartup db (IdStr.malformed s)
        = (.error ⟨400, "Invalid id format"⟩, db, [])
  ∧ startupDashboard db (IdStr.malformed s)
        = (.error ⟨400, "Invalid id format"⟩, [])
  ∧ expressInterest db (IdStr.valid n) pl2
        = (.error ⟨400, "Invalid id format"⟩, db, [DBOp.read "startuppitch"]) := by
  refine ⟨rfl, rfl, rfl, rfl, ?_⟩
  simp [expressInterest, oid, hp, h2]

/-- Witness for C3's amended statement at a concrete store. -/
theorem invalid_id_format_rejected_witness :
    expressInterest exDb2 (IdStr.malformed "zzz") payC
        = (.error ⟨400, "Invalid id format"⟩, exDb2, [])
  ∧ approveStartup exDb2 (IdStr.malformed "zzz")
        = (.error ⟨400, "Invalid id format"⟩, exDb2, [])
  ∧ rejectStartup exDb2 (IdStr.malformed "zzz")
        = (.error ⟨400, "Invalid id format"⟩, exDb2, [])
  ∧ startupDashboard exDb2 (IdStr.malformed "zzz")
        = (.error ⟨400, "Invalid id format"⟩, [])
  ∧ expressInterest exDb2 (IdStr.valid 1) payMal
        = (.error ⟨400, "Invalid id format"⟩, exDb2, [DBOp.read "startuppitch"]) :=
  invalid_id_format_rejected exDb2 "zzz" payC payMal 1 (1, pitchDoc2) rfl
    (by decide)

/-- Counterexample for C3 as stated: with pitch 1 present, a request whose
body carries a malformed `investor_user_id` fails with 400 "Invalid id
format", yet the startup lookup query has already executed — the failure
does not occur before every database query. -/
theorem invalid_body_id_after_query :
    (expressInterest exDb2 (IdStr.valid 1) payMal).1
        = .error ⟨400, "Invalid id format"⟩
  ∧ (expressInterest exDb2 (IdStr.valid 1) payMal).2.2
        = [DBOp.read "startuppitch"] :=
  ⟨rfl, rfl⟩

-- C1 ---------------------------------------------------------------------

/-- C1 (amended): after every successful express_interest, the pitch's
stored `total_raised` — and the value returned in the response — equals
the sum of `committed_amount` over all Interest documents referencing
that pitch in the resulting store. -/
theorem express_interest_total_raised_eq_sum (db : DB) (n iu : Nat)
    (payload : InterestCreateRequest)
    (hs : (db.pitches.find? (fun x => x.1 == n)).isSome = true)
    (hr : payload.investor_user_id = IdStr.valid iu)
    (hu : ∃ y, db.users.find? (fun x => x.1 == iu) = some y
             ∧ y.2.role = "investor") :
    ((expressInterest db (IdStr.valid n) payload).2.1.pitches.find?
        (fun x => x.1 == n)).map (fun x => x.2.total_raised)
      = some (sumCommitted
          (expressInterest db (IdStr.valid n) payload).2.1.interests n)
  ∧ ∃ r, (expressInterest db (IdStr.valid n) payload).1 = .ok r
       ∧ r.total_raised
           = sumCommitted
               (expressInterest db (IdStr.valid n) payload).2.1.interests n := by
  obtain ⟨sp, hsp⟩ := Option.isSome_iff_exists.mp hs
  obtain ⟨y, hy, hyrole⟩ := hu
  have hne : ¬ y.2.role ≠ "investor" := fun h => h hyrole
  have hT : ∀ l : List (Nat × InterestDoc),
      (l.filter (fun x => x.2.startup_id == n)).foldl
        (fun acc x => acc + x.2.committed_amount) 0 = sumCommitted l n :=
    fun l => (foldl_add_rat _ _ _).trans (zero_add _)
  simp only [expressInterest, oid, hsp, hr, hy, if_neg hne, DB.insertInterest]
  constructor
  · rw [find?_id_updateFirst, hsp]
    simp [hT]
    rw [sumCommitted_append _ _ _ rfl]
  · refine ⟨_, rfl, ?_⟩
    simp [hT]
    rw [sumCommitted_append _ _ _ rfl]

/-- Witness for C1's amended statement at a concrete store. -/
theorem express_interest_total_raised_eq_sum_witness :
    ((expressInterest exDb2 (IdStr.valid 1) payC).2.1.pitches.find?
        (fun x => x.1 == 1)).map (fun x => x.2.total_raised)
      = some (sumCommitted
          (expressInterest exDb2 (IdStr.valid 1) payC).2.1.interests 1)
  ∧ ∃ r, (expressInterest exDb2 (IdStr.valid 1) payC).1 = .ok r
       ∧ r.total_raised
           = sumCommitted
               (expressInterest exDb2 (IdStr.valid 1) payC).2.1.interests 1 :=
  express_interest_total_raised_eq_sum exDb2 1 2 payC (by decide) rfl
    ⟨(2, invDoc), by decide, rfl⟩

/-- Counterexample for C1 as stated: starting from the empty store,
register a startup, register an investor, commit 100 to the pitch (the
invariant holds), then re-register the startup with the same email: the
pitch's `total_raised` is reset to 0 while the Interest document remains,
so the invariant fails after an exposed operation on a reachable state. -/
theorem register_startup_breaks_invariant :
    totalRaisedInvariant exDb3 = true ∧ totalRaisedInvariant exDb4 = false := by
  constructor <;>
    norm_num [totalRaisedInvariant, sumCommitted, exDb4, exDb3, exDb2, exDb1,
      db0, pA, pI, payC, registerStartup, startupUserPhase, startupPitchPhase,
      registerInvestor, investorUserPhase, investorProfilePhase,
      expressInterest, oid, DB.insertUser, DB.insertPitch, DB.insertProfile,
      DB.insertInterest, updateFirst, List.find?, List.filter, List.all]

-- C6 ---------------------------------------------------------------------

/-- C6: each registration operation invoked with an existing user's email
overwrites that user's role with the registering role — "startup" for
register_startup, "investor" for register_investor, "admin" for
admin_bootstrap — regardless of the role previously stored. -/
theorem registration_overwrites_role (db : DB) (i : Nat) (u : UserDoc)
    (ps : StartupRegisterRequest) (pv : InvestorRegisterRequest)
    (pa : AdminBootstrapRequest)
    (h1 : db.users.find? (fun x => x.2.email == ps.email) = some (i, u))
    (h2 : db.users.find? (fun x => x.2.email == pv.email) = some (i, u))
    (h3 : db.users.find? (fun x => x.2.email == pa.email) = some (i, u)) :
    ((registerStartup db ps).2.users.find? (fun x => x.1 == i)).map
        (fun x => x.2.role) = some "startup"
  ∧ ((registerInvestor db pv).2.users.find? (fun x => x.1 == i)).map
        (fun x => x.2.role) = some "investor"
  ∧ ((adminBootstrap db pa).2.users.find? (fun x => x.1 == i)).map
        (fun x => x.2.role) = some "admin" := by
  have hmem : (i, u) ∈ db.users := List.mem_of_find?_eq_some h1
  obtain ⟨y, hy⟩ := Option.isSome_iff_exists.mp (find?_id_isSome_of_mem hmem)
  refine ⟨?_, ?_, ?_⟩
  · have husers : (registerStartup db ps).2.users
        = updateFirst db.users i (fun u => { u with role := "startup", full_name := ps.full_name }) := by
      show (startupPitchPhase (startupUserPhase db ps).2 ps
        (startupUserPhase db ps).1).2.users = _
      rw [startupPitchPhase_users]
      simp [startupUserPhase, h1]
    rw [husers, find?_id_updateFirst, hy]
    rfl
  · have husers : (registerInvestor db pv).2.users
        = updateFirst db.users i (fun u => { u with role := "investor", full_name := some pv.full_name, company := pv.company }) := by
      show (investorProfilePhase (investorUserPhase db pv).2 pv
        (investorUserPhase db pv).1).users = _
      rw [investorProfilePhase_users]
      simp [investorUserPhase, h2]
    rw [husers, find?_id_updateFirst, hy]
    rfl
  · have husers : (adminBootstrap db pa).2.users
        = updateFirst db.users i (fun u => { u with role := "admin", full_name := some pa.full_name }) := by
      simp [adminBootstrap, h3]
    rw [husers, find?_id_updateFirst, hy]
    rfl

/-- Witness for C6: an existing admin is turned into a startup, an investor,
or an admin again, by the respective registration call. -/
theorem registration_overwrites_role_witness :
    (((registerStartup dbAdmin psW).2.users.find? (fun x => x.1 == 0)).map
        (fun x => x.2.role) = some "startup")
  ∧ (((registerInvestor dbAdmin pvW).2.users.find? (fun x => x.1 == 0)).map
        (fun x => x.2.role) = some "investor")
  ∧ (((adminBootstrap dbAdmin paW).2.users.find? (fun x => x.1 == 0)).map
        (fun x => x.2.role) = some "admin") :=
  registration_overwrites_role dbAdmin 0 adminDoc psW pvW paW
    (by decide) (by decide) (by decide)

-- C10 --------------------------------------------------------------------

/-- C10: when the email's user already owns a pitch, register_startup
overwrites the whole pitch document with the new payload — status back to
"pending", `total_raised` back to 0 — keeps the same pitch id, and leaves
every Interest document in place. -/
theorem reregister_overwrites_pitch (db : DB) (p : StartupRegisterRequest)
    (i : Nat) (u : UserDoc) (j : Nat) (pd : PitchDoc)
    (hu : db.users.find? (fun x => x.2.email == p.email) = some (i, u))
    (hp : db.pitches.find? (fun x => x.2.owner_user_id == i) = some (j, pd)) :
    (registerStartup db p).2.pitches.find? (fun x => x.1 == j)
      = some (j, { owner_user_id := i, company_name := p.company_name,
                   product_description := p.product_description,
                   image_urls := p.image_urls,
                   previous_funding := p.previous_funding,
                   status := "pending", total_raised := 0 })
  ∧ (registerStartup db p).2.interests = db.interests
  ∧ (registerStartup db p).1.startup_id = j := by
  have hup1 : (startupUserPhase db p).1 = i := by
    simp [startupUserPhase, hu]
  have hupp : (startupUserPhase db p).2.pitches = db.pitches :=
    startupUserPhase_pitches db p
  have hfind : (startupUserPhase db p).2.pitches.find?
      (fun x => x.2.owner_user_id == (startupUserPhase db p).1) = some (j, pd) := by
    rw [hupp]; simp only [hup1]; exact hp
  have hjm : (j, pd) ∈ db.pitches := List.mem_of_find?_eq_some hp
  obtain ⟨y, hy⟩ := Option.isSome_iff_exists.mp (find?_id_isSome_of_mem hjm)
  have hpitches : (registerStartup db p).2.pitches
      = updateFirst (startupUserPhase db p).2.pitches j
          (fun _ => { owner_user_id := (startupUserPhase db p).1,
                      company_name := p.company_name,
                      product_description := p.product_description,
                      image_urls := p.image_urls,
                      previous_funding := p.previous_funding,
                      status := "pending", total_raised := 0 }) := by
    show (startupPitchPhase (startupUserPhase db p).2 p
      (startupUserPhase db p).1).2.pitches = _
    simp only [startupPitchPhase, hfind]
  have hsid : (registerStartup db p).1.startup_id = j := by
    show (startupPitchPhase (startupUserPhase db p).2 p
      (startupUserPhase db p).1).1 = j
    simp only [startupPitchPhase, hfind]
  refine ⟨?_, ?_, hsid⟩
  · rw [hpitches, hupp, find?_id_updateFirst, hy]
    have hy1 : y.1 = j := by simpa using List.find?_some hy
    simp [hup1, hy1]
  · show (startupPitchPhase (startupUserPhase db p).2 p
      (startupUserPhase db p).1).2.interests = db.interests
    rw [startupPitchPhase_interests, startupUserPhase_interests]

-- C5 ---------------------------------------------------------------------

theorem startupUserPhase_update (db : DB) (p : StartupRegisterRequest)
    (i : Nat) (u : UserDoc)
    (h : db.users.find? (fun x => x.2.email == p.email) = some (i, u)) :
    startupUserPhase db p
      = (i, { db with users := updateFirst db.users i (fun v => { v with role := "startup", full_name := p.full_name }) }) := by
  simp only [startupUserPhase, h]

theorem startupPitchPhase_update (db : DB) (p : StartupRegisterRequest)
    (uid j : Nat) (d : PitchDoc)
    (h : db.pitches.find? (fun x => x.2.owner_user_id == uid) = some (j, d)) :
    startupPitchPhase db p uid
      = (j, { db with pitches := updateFirst db.pitches j (fun _ => { owner_user_id := uid, company_name := p.company_name, product_description := p.product_description, image_urls := p.image_urls, previous_funding := p.previous_funding, status := "pending", total_raised := 0 }) }) := by
  simp only [startupPitchPhase, h]

/-- After the user phase runs, a user with the request's email is always
present, stored under the id the phase returned. -/
theorem startupUserPhase_find_email (db : DB) (p : StartupRegisterRequest) :
    ∃ u, (startupUserPhase db p).2.users.find? (fun x => x.2.email == p.email)
         = some ((startupUserPhase db p).1, u) := by
  cases h : db.users.find? (fun x => x.2.email == p.email) with
  | none =>
    simp only [startupUserPhase, h, DB.insertUser]
    refine ⟨{ email := p.email, full_name := p.full_name, role := "startup",
              company := none, is_active := true }, ?_⟩
    rw [find?_append_left_none _ _ _ h]
    simp [List.find?]
  | some ex =>
    simp only [startupUserPhase, h]
    have hmap := find?_map_fst_updateFirst db.users ex.1
      (fun v => { v with role := "startup", full_name := p.full_name })
      (fun x => x.2.email == p.email) (fun j d => rfl)
    rw [h] at hmap
    cases h2 : (updateFirst db.users ex.1
        (fun v => { v with role := "startup", full_name := p.full_name })).find?
        (fun x => x.2.email == p.email) with
    | none => rw [h2] at hmap; cases hmap
    | some z =>
      rw [h2] at hmap
      have hz : z.1 = ex.1 := by simpa using hmap
      exact ⟨z.2, by rw [← hz]⟩

/-- After the pitch phase runs, a pitch owned by `uid` is always present,
stored under the id the phase returned. -/
theorem startupPitchPhase_find_owner (db : DB) (p : StartupRegisterRequest)
    (uid : Nat) :
    ∃ d, (startupPitchPhase db p uid).2.pitches.find?
        (fun x => x.2.owner_user_id == uid)
      = some ((startupPitchPhase db p uid).1, d) := by
  cases h : db.pitches.find? (fun x => x.2.owner_user_id == uid) with
  | none =>
    simp only [startupPitchPhase, h, DB.insertPitch]
    refine ⟨{ owner_user_id := uid, company_name := p.company_name,
              product_description := p.product_description,
              image_urls := p.image_urls,
              previous_funding := p.previous_funding,
              status := "pending", total_raised := 0 }, ?_⟩
    rw [find?_append_left_none _ _ _ h]
    simp [List.find?]
  | some ex =>
    simp only [startupPitchPhase, h]
    exact ⟨_, find?_updateFirst_const db.pitches _ ex.1 ex.2 _ h (by simp)⟩

/-- C5: registering the same email twice creates no duplicate User or
StartupPitch documents — the second call updates in place, and the
returned `user_id` and `startup_id` match the first call's. -/
theorem register_startup_twice_stable (db : DB)
    (p1 p2 : StartupRegisterRequest) (he : p2.email = p1.email) :
    (registerStartup (registerStartup db p1).2 p2).1.user_id
        = (registerStartup db p1).1.user_id
  ∧ (registerStartup (registerStartup db p1).2 p2).1.startup_id
        = (registerStartup db p1).1.startup_id
  ∧ (registerStartup (registerStartup db p1).2 p2).2.users.length
        = (registerStartup db p1).2.users.length
  ∧ (registerStartup (registerStartup db p1).2 p2).2.pitches.length
        = (registerStartup db p1).2.pitches.length := by
  obtain ⟨u1, hu1⟩ := startupUserPhase_find_email db p1
  have e_users1 : (registerStartup db p1).2.users
      = (startupUserPhase db p1).2.users := startupPitchPhase_users _ _ _
  have hfind2 : (registerStartup db p1).2.users.find?
        (fun x => x.2.email == p2.email)
      = some ((startupUserPhase db p1).1, u1) := by
    rw [e_users1]
    simp only [he]
    exact hu1
  have hup2 := startupUserPhase_update (registerStartup db p1).2 p2
    (startupUserPhase db p1).1 u1 hfind2
  obtain ⟨d1, hd1⟩ := startupPitchPhase_find_owner (startupUserPhase db p1).2
    p1 (startupUserPhase db p1).1
  have hfindp2 : (startupUserPhase (registerStartup db p1).2 p2).2.pitches.find?
        (fun x => x.2.owner_user_id
          == (startupUserPhase (registerStartup db p1).2 p2).1)
      = some ((startupPitchPhase (startupUserPhase db p1).2 p1
          (startupUserPhase db p1).1).1, d1) := by
    simp only [hup2]
    exact hd1
  have hpp2 := startupPitchPhase_update
    (startupUserPhase (registerStartup db p1).2 p2).2 p2
    (startupUserPhase (registerStartup db p1).2 p2).1
    (startupPitchPhase (startupUserPhase db p1).2 p1
      (startupUserPhase db p1).1).1 d1 hfindp2
  refine ⟨?_, ?_, ?_, ?_⟩
  · show (startupUserPhase (registerStartup db p1).2 p2).1
        = (startupUserPhase db p1).1
    rw [hup2]
  · show (startupPitchPhase (startupUserPhase (registerStartup db p1).2 p2).2
        p2 (startupUserPhase (registerStartup db p1).2 p2).1).1
        = (startupPitchPhase (startupUserPhase db p1).2 p1
            (startupUserPhase db p1).1).1
    rw [hpp2]
  · show (startupPitchPhase (startupUserPhase (registerStartup db p1).2 p2).2
        p2 (startupUserPhase (registerStartup db p1).2 p2).1).2.users.length
        = (registerStartup db p1).2.users.length
    rw [startupPitchPhase_users, hup2]
    exact updateFirst_length _ _ _
  · show (startupPitchPhase (startupUserPhase (registerStartup db p1).2 p2).2
        p2 (startupUserPhase (registerStartup db p1).2 p2).1).2.pitches.length
        = (registerStartup db p1).2.pitches.length
    rw [hpp2]
    show (updateFirst (startupUserPhase (registerStartup db p1).2 p2).2.pitches
        _ _).length = _
    rw [updateFirst_length, hup2]

/-- Witness for C5: the same registration payload submitted twice from the
empty store. -/
theorem register_startup_twice_stable_witness :
    (registerStartup (registerStartup db0 pA).2 pA).1.user_id
        = (registerStartup db0 pA).1.user_id
  ∧ (registerStartup (registerStartup db0 pA).2 pA).1.startup_id
        = (registerStartup db0 pA).1.startup_id
  ∧ (registerStartup (registerStartup db0 pA).2 pA).2.users.length
        = (registerStartup db0 pA).2.users.length
  ∧ (registerStartup (registerStartup db0 pA).2 pA).2.pitches.length
        = (registerStartup db0 pA).2.pitches.length :=
  register_startup_twice_stable db0 pA pA rfl

/-- Witness for C10 at a concrete store. -/
theorem reregister_overwrites_pitch_witness :
    (registerStartup dbOwn pA).2.pitches.find? (fun x => x.1 == 1)
      = some (1, { owner_user_id := 0, company_name := pA.company_name,
                   product_description := pA.product_description,
                   image_urls := pA.image_urls,
                   previous_funding := pA.previous_funding,
                   status := "pending", total_raised := 0 })
  ∧ (registerStartup dbOwn pA).2.interests = dbOwn.interests
  ∧ (registerStartup dbOwn pA).1.startup_id = 1 :=
  reregister_overwrites_pitch dbOwn pA 0 ownerDoc 1
    { pitchDoc2 with total_raised := 100 } (by decide) (by decide)

end Fund
